import Mathlib

/-!
Verification of the sport-buddy tool adapters and CLI runner.

A shallow embedding of the Python sources:
  * `src/adk/agents/sports_events_agent/tools.py` (`search_teams`)
  * `src/adk/agents/stock_agent/tools.py` (`get_stock_price`)
  * `src/adk/agent_runner.py` (`main` / `run_agent`)

Python dictionary values are modelled by the inductive type `Val`; a dict is an
association list with string keys (first occurrence wins, as Python dicts have
unique keys).  Exceptions raised inside a `try` body are modelled with
`Except PyExn`; the external effects (the single `requests.get` call, the
`yfinance` fetch, `json.loads`, the agent runtime) are parameters describing
the outcome of the call, and the number of outbound network-call attempts is
returned alongside the result.  Character classes (`str.strip`, the regex
allow-list) are modelled over the ASCII range used by the code and tests.
-/

namespace SportBuddy

/-- A Python value as used by the adapters: strings, ints, booleans, `None`,
lists, and string-keyed dicts (association lists, unique keys). -/
inductive Val where
  | str (s : String)
  | int (n : Int)
  | bool (b : Bool)
  | none
  | list (xs : List Val)
  | dict (es : List (String × Val))

/-- Key lookup in a dict value; `Option.none` on absent keys or non-dicts. -/
def Val.lookup : Val → String → Option Val
  | Val.dict es, k => List.lookup k es
  | _, _ => Option.none

/-- Python `d.get(k, default)` on an association list. -/
def pyGet (es : List (String × Val)) (k : String) (d : Val) : Val :=
  match List.lookup k es with
  | Option.some v => v
  | Option.none => d

/-- Python truthiness (`bool(v)`): empty string, zero, `False`, `None`,
empty list and empty dict are falsy. -/
def pyTruthy : Val → Bool
  | Val.str s => !s.isEmpty
  | Val.int n => n != 0
  | Val.bool b => b
  | Val.none => false
  | Val.list xs => !xs.isEmpty
  | Val.dict es => !es.isEmpty

/-- `isinstance(v, str)`. -/
def Val.isStr : Val → Bool
  | Val.str _ => true
  | _ => false

/-- `isinstance(v, dict)`. -/
def Val.isDictV : Val → Bool
  | Val.dict _ => true
  | _ => false

/-- Python `str(v)` as used in f-string error messages.  Faithful on the
strings the adapters actually interpolate (on every reachable path the
interpolated value is a `str`); container renderings are abbreviated. -/
def pyStr : Val → String
  | Val.str s => s
  | Val.int n => toString n
  | Val.bool b => if b then "True" else "False"
  | Val.none => "None"
  | Val.list _ => "[...]"
  | Val.dict _ => "dict"

/-- The whitespace characters stripped by `str.strip()` and matched by the
regex class `\s`, over the ASCII range. -/
def pyIsSpace (c : Char) : Bool :=
  c = ' ' || c = '\t' || c = '\n' || c = '\x0d' || c = '\x0b' || c = '\x0c'

/-- `team_name.strip()`. -/
def pyStrip (s : String) : String :=
  String.mk (((s.toList.dropWhile pyIsSpace).reverse.dropWhile pyIsSpace).reverse)

/-- One character of the allow-list `[a-zA-Z0-9\s\-\.\x27&]`
(tools.py line 55). -/
def allowedChar (c : Char) : Bool :=
  c.isAlpha || c.isDigit || pyIsSpace c || c = '-' || c = '.' || c = '\x27' || c = '&'

/-- `re.match(r'^[a-zA-Z0-9\s\-\.\x27&]+$', clean)` succeeds: the cleaned
name is non-empty and every character is on the allow-list. -/
def regexOk (clean : String) : Bool :=
  !clean.isEmpty && clean.toList.all allowedChar

/-- The validation gate of `search_teams` as one predicate: the raw input is a
non-empty string whose stripped form matches the allow-list regex and is at
most 50 characters long.  Exactly the inputs that reach the network call. -/
def validTeamName (s : String) : Bool :=
  !s.isEmpty && regexOk (pyStrip s) && Nat.ble (pyStrip s).length 50

/-- An exception raised inside the `try` body of `search_teams`:
`requests.exceptions.Timeout`, `requests.exceptions.RequestException` (which
covers `HTTPError` from `raise_for_status`), and the generic `Exception`
cases (`ValueError` from `response.json()`, `TypeError` from dynamic typing
slips while processing the payload). -/
inductive PyExn where
  | timeout
  | requestException (msg : String)
  | valueError (msg : String)
  | typeError (msg : String)

/-- The outcome of the single `requests.get` call: a timeout, a transport
error, or an HTTP response carrying a status code, a JSON body (or a parse
failure) and an optional `date` header. -/
inductive NetOutcome where
  | timeout
  | requestError (msg : String)
  | response (status : Nat) (body : Except String Val) (date : Option String)

/-- The `description` entry of a processed team (tools.py line 131):
`team.get('strDescriptionEN', '')[:200] + '...' if team.get('strDescriptionEN')
and len(team.get('strDescriptionEN', '')) > 200 else
team.get('strDescriptionEN', '')`.  The argument is the dict entry for
`strDescriptionEN` (`Option.none` when the key is absent).  In the string
case the truthiness conjunct is implied by `200 < length`; non-string truthy
values make `len` or the slice-and-concatenate raise a `TypeError`. -/
def descValue : Option Val → Except PyExn Val
  | Option.none => Except.ok (Val.str "")
  | Option.some (Val.str d) =>
      if 200 < d.length then Except.ok (Val.str (d.take 200 ++ "..."))
      else Except.ok (Val.str d)
  | Option.some Val.none => Except.ok Val.none
  | Option.some (Val.bool b) =>
      if b then Except.error (PyExn.typeError "object of type bool has no len")
      else Except.ok (Val.bool false)
  | Option.some (Val.int n) =>
      if n != 0 then Except.error (PyExn.typeError "object of type int has no len")
      else Except.ok (Val.int 0)
  | Option.some (Val.list xs) =>
      if 200 < xs.length then Except.error (PyExn.typeError "can only concatenate list to list")
      else Except.ok (Val.list xs)
  | Option.some (Val.dict es) =>
      if 200 < es.length then Except.error (PyExn.typeError "unhashable type slice")
      else Except.ok (Val.dict es)

/-- One iteration of the processing loop (tools.py lines 122-136): the
field-rename/default table applied to a team record. -/
def process_team (team : List (String × Val)) : Except PyExn (List (String × Val)) := do
  let desc ← descValue (List.lookup "strDescriptionEN" team)
  Except.ok [
    ("team_id", pyGet team "idTeam" Val.none),
    ("team_name", pyGet team "strTeam" (Val.str "Unknown")),
    ("alternate_name", pyGet team "strAlternate" (Val.str "")),
    ("league", pyGet team "strLeague" (Val.str "Unknown League")),
    ("sport", pyGet team "strSport" (Val.str "Unknown Sport")),
    ("founded", pyGet team "intFormedYear" (Val.str "")),
    ("venue", pyGet team "strStadium" (Val.str "Unknown Venue")),
    ("location", pyGet team "strLocation" (Val.str "Unknown Location")),
    ("description", desc),
    ("website", pyGet team "strWebsite" (Val.str "")),
    ("logo", pyGet team "strTeamBadge" (Val.str "")),
    ("jersey", pyGet team "strTeamJersey" (Val.str "")),
    ("country", pyGet team "strCountry" (Val.str "Unknown"))
  ]

/-- `for team in teams_data`: lists iterate their elements, strings their
characters, dicts their keys; other values raise `TypeError`. -/
def pyIter : Val → Except PyExn (List Val)
  | Val.list xs => Except.ok xs
  | Val.str s => Except.ok (s.toList.map (fun c => Val.str (String.mk [c])))
  | Val.dict es => Except.ok (es.map (fun p => Val.str p.1))
  | Val.none => Except.error (PyExn.typeError "NoneType object is not iterable")
  | Val.bool _ => Except.error (PyExn.typeError "bool object is not iterable")
  | Val.int _ => Except.error (PyExn.typeError "int object is not iterable")

/-- Python `teams_data == [None]` (tools.py line 107): true exactly for the
one-element list holding `None`. -/
def eqListNone : Val → Bool
  | Val.list [Val.none] => true
  | _ => false

/-- The processing loop: keep the items that are truthy dicts
(`if team and isinstance(team, dict)`), map each through `process_team`. -/
def processAll : List Val → Except PyExn (List Val)
  | [] => Except.ok []
  | t :: ts =>
      match t with
      | Val.dict es =>
          if es.isEmpty then processAll ts
          else do
            let p ← process_team es
            let rest ← processAll ts
            Except.ok (Val.dict p :: rest)
      | _ => processAll ts

/-- tools.py lines 44-49: falsy or non-string `team_name`. -/
def invalidDict (v : Val) : Val := Val.dict [
  ("error", Val.str "Invalid team name provided. Please provide a valid team name string."),
  ("team_name", v),
  ("validation_failed", Val.bool true),
  ("success", Val.bool false)]

/-- tools.py lines 57-62: the allow-list regex failed. -/
def formatDict (v : Val) : Val := Val.dict [
  ("error", Val.str "Invalid team name format. Use only letters, numbers, spaces and basic punctuation."),
  ("team_name", v),
  ("validation_failed", Val.bool true),
  ("success", Val.bool false)]

/-- tools.py lines 67-72: the cleaned name is longer than 50 characters. -/
def tooLongDict (v : Val) : Val := Val.dict [
  ("error", Val.str "Team name too long. Maximum 50 characters allowed."),
  ("team_name", v),
  ("validation_failed", Val.bool true),
  ("success", Val.bool false)]

/-- tools.py lines 97-102: the decoded JSON body is not a dict. -/
def apiErrorDict (clean : String) : Val := Val.dict [
  ("error", Val.str "Invalid response format from sports API"),
  ("team_name", Val.str clean),
  ("api_error", Val.bool true),
  ("success", Val.bool false)]

/-- tools.py lines 109-116: the API succeeded but matched nothing. -/
def emptyResultDict (clean : String) : Val := Val.dict [
  ("teams", Val.list []),
  ("count", Val.int 0),
  ("message", Val.str ("No teams found matching \x27" ++ clean ++ "\x27. Try different spelling or a more specific name.")),
  ("search_term", Val.str clean),
  ("success", Val.bool true),
  ("timestamp", Val.none)]

/-- tools.py lines 140-148: the structured success result. -/
def successDict (clean : String) (processed : List Val) (date : Option String) : Val := Val.dict [
  ("teams", Val.list processed),
  ("count", Val.int processed.length),
  ("search_term", Val.str clean),
  ("api_source", Val.str "TheSportsDB"),
  ("success", Val.bool true),
  ("timestamp", Val.str (date.getD "Unknown")),
  ("message", Val.str ("Found " ++ toString processed.length ++ " team(s) matching \x27" ++ clean ++ "\x27"))]

/-- tools.py lines 157-163: the `requests.exceptions.Timeout` handler. -/
def timeoutDict (v : Val) : Val := Val.dict [
  ("error", Val.str "Request timed out. The sports API is taking too long to respond. Please try again."),
  ("team_name", v),
  ("timeout_error", Val.bool true),
  ("success", Val.bool false),
  ("timestamp", Val.none)]

/-- tools.py lines 169-176: the `requests.exceptions.RequestException` handler. -/
def networkErrorDict (v : Val) (m : String) : Val := Val.dict [
  ("error", Val.str "Network error occurred while searching for teams. Please check your connection and try again."),
  ("team_name", v),
  ("network_error", Val.bool true),
  ("technical_details", Val.str m),
  ("success", Val.bool false),
  ("timestamp", Val.none)]

/-- tools.py lines 183-188: the generic `Exception` handler. -/
def genericErrorDict (v : Val) (m : String) : Val := Val.dict [
  ("error", Val.str ("Unable to search for teams matching \x27" ++ pyStr v ++ "\x27. Please try a different team name or try again later.")),
  ("team_name", v),
  ("technical_error", Val.str m),
  ("success", Val.bool false),
  ("timestamp", Val.none)]

/-- tools.py lines 104-148: handling of the decoded JSON dict `ds` — extract
`teams` (default `[]`), return the empty-result dict when it is falsy or
`[None]`, otherwise iterate, filter, process, and build the success result. -/
def processResponse (clean : String) (ds : List (String × Val)) (date : Option String) :
    Except PyExn Val :=
  if !pyTruthy (pyGet ds "teams" (Val.list [])) || eqListNone (pyGet ds "teams" (Val.list [])) then
    Except.ok (emptyResultDict clean)
  else do
    let items ← pyIter (pyGet ds "teams" (Val.list []))
    let processed ← processAll items
    Except.ok (successDict clean processed date)

/-- The `try` body of `search_teams` (tools.py lines 40-151).  Returns the
produced result or the exception escaping to the handlers, paired with the
number of outbound network-call attempts (0 on the validation paths, 1 once
`requests.get` runs). -/
def search_teams_body (team_name : Val) (net : NetOutcome) : Except PyExn Val × Nat :=
  match team_name with
  | Val.str s =>
      if s.isEmpty then (Except.ok (invalidDict (Val.str s)), 0)
      else if !regexOk (pyStrip s) then (Except.ok (formatDict (Val.str s)), 0)
      else if 50 < (pyStrip s).length then (Except.ok (tooLongDict (Val.str s)), 0)
      else
        match net with
        | NetOutcome.timeout => (Except.error PyExn.timeout, 1)
        | NetOutcome.requestError m => (Except.error (PyExn.requestException m), 1)
        | NetOutcome.response status body date =>
            if 400 ≤ status then
              (Except.error (PyExn.requestException ("HTTP error " ++ toString status)), 1)
            else
              match body with
              | Except.error m => (Except.error (PyExn.valueError m), 1)
              | Except.ok (Val.dict ds) => (processResponse (pyStrip s) ds date, 1)
              | Except.ok _ => (Except.ok (apiErrorDict (pyStrip s)), 1)
  | v => (Except.ok (invalidDict v), 0)

/-- The exception handlers of `search_teams` (tools.py lines 153-189):
`except Timeout`, then `except RequestException`, then `except Exception`. -/
def handleExn (team_name : Val) : PyExn → Val
  | PyExn.timeout => timeoutDict team_name
  | PyExn.requestException m => networkErrorDict team_name m
  | PyExn.valueError m => genericErrorDict team_name m
  | PyExn.typeError m => genericErrorDict team_name m

/-- `search_teams` (tools.py lines 14-189): the `try` body wrapped in the
exception handlers.  Total by construction: every exception raised in the
body is converted to an error dict, none escapes to the caller. -/
def search_teams (team_name : Val) (net : NetOutcome) : Val × Nat :=
  match search_teams_body team_name net with
  | (Except.ok r, n) => (r, n)
  | (Except.error e, n) => (handleExn team_name e, n)

/-- The outcome of the `yfinance` fetch inside `get_stock_price`: either the
ticker info dict together with the already-converted close/high/low values of
the one-day history, or an exception (unknown ticker, empty history,
conversion failure, transport error — all reach the same handler). -/
inductive StockOutcome where
  | ok (info : List (String × Val)) (close high low : Val)
  | exn (msg : String)

/-- `get_stock_price` (stock_agent/tools.py lines 3-31).  There is no
validation branch: every input, the empty string included, flows into the
`try` body that performs the remote fetch, so the attempt count is 1 on every
path.  The success dict carries no `success` field, and the `except Exception`
handler returns an error dict that carries no `success` field either. -/
def get_stock_price (ticker : Val) (out : StockOutcome) : Val × Nat :=
  match out with
  | StockOutcome.ok info close high low =>
      (Val.dict [
        ("company_name", pyGet info "shortName" (Val.str "Unknown")),
        ("current_price", close),
        ("daily_high", high),
        ("daily_low", low),
        ("currency", pyGet info "currency" (Val.str "USD")),
        ("ticker", ticker)], 1)
  | StockOutcome.exn m =>
      (Val.dict [
        ("error", Val.str ("Failed to retrieve stock information: " ++ m)),
        ("ticker", ticker)], 1)

/-- Whether a `StockOutcome` is the success case. -/
def StockOutcome.isOk : StockOutcome → Bool
  | StockOutcome.ok _ _ _ _ => true
  | StockOutcome.exn _ => false

/-- The ToolResult envelope invariant claimed by the spec, as an observation
on one result value: a boolean `success` field with the data payload
(`teams`) populated and `error` absent on success, and `error` populated and
`teams` absent on failure. -/
def envOk (r : Val) : Prop :=
  (Val.lookup r "success" = Option.some (Val.bool true) ∧
    (∃ ts, Val.lookup r "teams" = Option.some ts) ∧
    Val.lookup r "error" = Option.none) ∨
  (Val.lookup r "success" = Option.some (Val.bool false) ∧
    (∃ m, Val.lookup r "error" = Option.some m) ∧
    Val.lookup r "teams" = Option.none)

/-- The behaviour of the external agent runtime inside `run_agent`
(agent_runner.py lines 20-54): either the accumulated streamed reply, or an
exception message. -/
inductive AgentOutcome where
  | reply (text : String)
  | failure (msg : String)

/-- The observable outcome of one run of `main`: the strings printed to
stdout (one entry per `print` call), the process exit code, and how many
times `run_agent` was entered. -/
structure RunnerResult where
  stdout : List String
  exitCode : Nat
  agentCalls : Nat

/-- `run_agent` (agent_runner.py lines 20-54): returns the stripped
accumulated response, or wraps any exception as an
`Agent execution error: ...` exception. -/
def run_agent_model (agent : AgentOutcome) : Except String String :=
  match agent with
  | AgentOutcome.reply t => Except.ok (pyStrip t)
  | AgentOutcome.failure m => Except.error ("Agent execution error: " ++ m)

/-- agent_runner.py lines 77-88: run the agent and print the response between
the response sentinels, or print the exception between the error sentinels
and exit 1. -/
def runAgentAndPrint (agent : AgentOutcome) : RunnerResult :=
  match run_agent_model agent with
  | Except.ok resp =>
      { stdout := ["AGENT_RESPONSE_START", resp, "AGENT_RESPONSE_END"],
        exitCode := 0, agentCalls := 1 }
  | Except.error m =>
      { stdout := ["AGENT_ERROR_START", "Error: " ++ m, "AGENT_ERROR_END"],
        exitCode := 1, agentCalls := 1 }

/-- `main` (agent_runner.py lines 57-88).  `argv` is `sys.argv` (the script
name first); `parseCtx` is `json.loads` on the optional context argument
(`Except.error` carries the `JSONDecodeError` message); the `sys.exit(1)`
calls raise `SystemExit`, which `except Exception` does not catch. -/
def agent_runner_main (argv : List String) (parseCtx : String → Except String Val)
    (agent : AgentOutcome) : RunnerResult :=
  if argv.length < 2 then
    { stdout := ["AGENT_ERROR_START\nUsage: python agent_runner.py <message> [context_json]\nAGENT_ERROR_END"],
      exitCode := 1, agentCalls := 0 }
  else
    match argv[2]? with
    | Option.some ctx =>
        match parseCtx ctx with
        | Except.error e =>
            { stdout := ["AGENT_ERROR_START\nInvalid context JSON: " ++ e ++ "\nAGENT_ERROR_END"],
              exitCode := 1, agentCalls := 0 }
        | Except.ok _ => runAgentAndPrint agent
    | Option.none => runAgentAndPrint agent

/-- The value of `process_team` on the empty record: every field at its
default. -/
def processTeamEmpty : List (String × Val) := [
  ("team_id", Val.none),
  ("team_name", Val.str "Unknown"),
  ("alternate_name", Val.str ""),
  ("league", Val.str "Unknown League"),
  ("sport", Val.str "Unknown Sport"),
  ("founded", Val.str ""),
  ("venue", Val.str "Unknown Venue"),
  ("location", Val.str "Unknown Location"),
  ("description", Val.str ""),
  ("website", Val.str ""),
  ("logo", Val.str ""),
  ("jersey", Val.str ""),
  ("country", Val.str "Unknown")]

/-! ## Theorems -/

/-- Unfolding `search_teams` when the body returns normally. -/
theorem search_teams_ok (v : Val) (net : NetOutcome) (r : Val) (n : Nat)
    (h : search_teams_body v net = (Except.ok r, n)) : search_teams v net = (r, n) := by
  simp [search_teams, h]

/-- Unfolding `search_teams` when the body raises: the handlers produce the
corresponding error dict. -/
theorem search_teams_err (v : Val) (net : NetOutcome) (e : PyExn) (n : Nat)
    (h : search_teams_body v net = (Except.error e, n)) :
    search_teams v net = (handleExn v e, n) := by
  simp [search_teams, h]

/-- Splitting the validation gate: a valid team name is non-empty, its
stripped form matches the allow-list regex, and is at most 50 characters. -/
theorem validParts (s : String) (h : validTeamName s = true) :
    s.isEmpty = false ∧ regexOk (pyStrip s) = true ∧ ¬ 50 < (pyStrip s).length := by
  unfold validTeamName at h
  simp only [Bool.and_eq_true, Bool.not_eq_true'] at h
  exact ⟨h.1.1, h.1.2, Nat.not_lt.mpr (Nat.le_of_ble_eq_true h.2)⟩

/-- The three validation-failure dicts share the rejection shape:
`success=false`, `validation_failed=true`, and a non-empty error message. -/
theorem validationDictProps (v : Val) (d : Val)
    (hd : d = invalidDict v ∨ d = formatDict v ∨ d = tooLongDict v) :
    Val.lookup d "success" = Option.some (Val.bool false) ∧
    Val.lookup d "validation_failed" = Option.some (Val.bool true) ∧
    ∃ m, Val.lookup d "error" = Option.some (Val.str m) ∧ m ≠ "" := by
  rcases hd with h | h | h <;> subst h <;> exact ⟨rfl, rfl, _, rfl, by decide⟩

/-- `envOk` holds for the empty-result dict. -/
theorem envOk_emptyResultDict (clean : String) : envOk (emptyResultDict clean) :=
  Or.inl ⟨rfl, ⟨_, rfl⟩, rfl⟩

/-- `envOk` holds for the structured success dict. -/
theorem envOk_successDict (clean : String) (processed : List Val) (date : Option String) :
    envOk (successDict clean processed date) :=
  Or.inl ⟨rfl, ⟨_, rfl⟩, rfl⟩

/-- `envOk` holds for every normal return of `processResponse`. -/
theorem envOk_processResponse (clean : String) (ds : List (String × Val)) (date : Option String)
    (r : Val) (h : processResponse clean ds date = Except.ok r) : envOk r := by
  unfold processResponse at h
  split at h
  · exact (Except.ok.inj h) ▸ envOk_emptyResultDict clean
  · rcases hi : pyIter (pyGet ds "teams" (Val.list [])) with e | items <;>
      rw [hi] at h <;> simp only [Bind.bind, Except.bind] at h
    · exact Except.noConfusion h
    · rcases hp : processAll items with e | processed <;> rw [hp] at h
      · exact Except.noConfusion h
      · exact (Except.ok.inj h) ▸ envOk_successDict clean processed date

/-- `envOk` holds for every normal return of the `try` body. -/
theorem envOk_body (v : Val) (net : NetOutcome) (r : Val) (n : Nat)
    (h : search_teams_body v net = (Except.ok r, n)) : envOk r := by
  unfold search_teams_body at h
  repeat' split at h
  all_goals rw [Prod.mk.injEq] at h
  all_goals first
    | exact absurd h.1 (fun hh => Except.noConfusion hh)
    | exact envOk_processResponse _ _ _ _ h.1
    | exact (Except.ok.inj h.1) ▸ Or.inr ⟨rfl, ⟨_, rfl⟩, rfl⟩

/-- Every result of `search_teams` satisfies the ToolResult envelope. -/
theorem envOk_search (v : Val) (net : NetOutcome) : envOk (search_teams v net).1 := by
  rcases hb : search_teams_body v net with ⟨res, n⟩
  rcases res with e | r
  · rw [search_teams_err v net e n hb]
    cases e
    · exact Or.inr ⟨rfl, ⟨_, rfl⟩, rfl⟩
    · exact Or.inr ⟨rfl, ⟨_, rfl⟩, rfl⟩
    · exact Or.inr ⟨rfl, ⟨_, rfl⟩, rfl⟩
    · exact Or.inr ⟨rfl, ⟨_, rfl⟩, rfl⟩
  · rw [search_teams_ok v net r n hb]
    exact envOk_body v net r n hb

/-- C4: for every remote team record whose `strDescriptionEN` field is a
string longer than 200 characters, the normalized `description` equals the
first 200 characters followed by the ellipsis marker `...`; for a description
of 200 characters or fewer it is passed through unchanged. -/
theorem c4_description_truncation (team : List (String × Val)) (d : String)
    (h : List.lookup "strDescriptionEN" team = Option.some (Val.str d)) :
    ∃ ps, process_team team = Except.ok ps ∧
      List.lookup "description" ps =
        Option.some (Val.str (if 200 < d.length then d.take 200 ++ "..." else d)) := by
  unfold process_team
  rw [h]
  by_cases hd : 200 < d.length <;>
    simp [descValue, hd, Bind.bind, Except.bind, List.lookup]

/-- Witness for C4 at a concrete 201-character description. -/
theorem c4_description_truncation_witness :
    ∃ ps, process_team [("strDescriptionEN", Val.str (String.mk (List.replicate 201 'a')))] =
        Except.ok ps ∧
      List.lookup "description" ps =
        Option.some (Val.str (if 200 < (String.mk (List.replicate 201 'a')).length
          then (String.mk (List.replicate 201 'a')).take 200 ++ "..."
          else String.mk (List.replicate 201 'a'))) :=
  c4_description_truncation _ _ rfl

/-- C5: for every remote team record that `process_team` accepts, each
missing optional field resolves to its documented named default: league
`Unknown League`, team name `Unknown`, venue `Unknown Venue`, sport
`Unknown Sport`, location `Unknown Location`, country `Unknown`. -/
theorem c5_missing_field_defaults (team : List (String × Val)) (ps : List (String × Val))
    (h : process_team team = Except.ok ps) :
    (List.lookup "strLeague" team = Option.none →
      List.lookup "league" ps = Option.some (Val.str "Unknown League")) ∧
    (List.lookup "strTeam" team = Option.none →
      List.lookup "team_name" ps = Option.some (Val.str "Unknown")) ∧
    (List.lookup "strStadium" team = Option.none →
      List.lookup "venue" ps = Option.some (Val.str "Unknown Venue")) ∧
    (List.lookup "strSport" team = Option.none →
      List.lookup "sport" ps = Option.some (Val.str "Unknown Sport")) ∧
    (List.lookup "strLocation" team = Option.none →
      List.lookup "location" ps = Option.some (Val.str "Unknown Location")) ∧
    (List.lookup "strCountry" team = Option.none →
      List.lookup "country" ps = Option.some (Val.str "Unknown")) := by
  unfold process_team at h
  rcases hd : descValue (List.lookup "strDescriptionEN" team) with e | desc <;> rw [hd] at h
  · simp [Bind.bind, Except.bind] at h
  · simp only [Bind.bind, Except.bind, Except.ok.injEq] at h
    subst h
    refine ⟨fun hl => ?_, fun hl => ?_, fun hl => ?_, fun hl => ?_, fun hl => ?_, fun hl => ?_⟩ <;>
      simp [List.lookup, pyGet, hl]

/-- Witness for C5 at the empty record: every optional field is missing and
every normalized field is its default. -/
theorem c5_missing_field_defaults_witness :
    (List.lookup "strLeague" ([] : List (String × Val)) = Option.none →
      List.lookup "league" (processTeamEmpty) = Option.some (Val.str "Unknown League")) ∧
    (List.lookup "strTeam" ([] : List (String × Val)) = Option.none →
      List.lookup "team_name" (processTeamEmpty) = Option.some (Val.str "Unknown")) ∧
    (List.lookup "strStadium" ([] : List (String × Val)) = Option.none →
      List.lookup "venue" (processTeamEmpty) = Option.some (Val.str "Unknown Venue")) ∧
    (List.lookup "strSport" ([] : List (String × Val)) = Option.none →
      List.lookup "sport" (processTeamEmpty) = Option.some (Val.str "Unknown Sport")) ∧
    (List.lookup "strLocation" ([] : List (String × Val)) = Option.none →
      List.lookup "location" (processTeamEmpty) = Option.some (Val.str "Unknown Location")) ∧
    (List.lookup "strCountry" ([] : List (String × Val)) = Option.none →
      List.lookup "country" (processTeamEmpty) = Option.some (Val.str "Unknown")) :=
  c5_missing_field_defaults [] processTeamEmpty rfl

/-- C1 counterexample: a 51-character input whose trailing blank is stripped
before the length check.  The raw string exceeds the 50-character bound, yet
`search_teams` performs the network call (attempt count 1), returns
`success=true`, and sets no `validation_failed` marker — so the claim as
stated over the raw input fails. -/
theorem c1_raw_length_counterexample :
    (String.mk (List.replicate 50 'a') ++ " ").length = 51 ∧
    Val.lookup (search_teams (Val.str (String.mk (List.replicate 50 'a') ++ " "))
        (NetOutcome.response 200 (Except.ok (Val.dict [("teams", Val.list [])])) Option.none)).1
      "validation_failed" = Option.none ∧
    Val.lookup (search_teams (Val.str (String.mk (List.replicate 50 'a') ++ " "))
        (NetOutcome.response 200 (Except.ok (Val.dict [("teams", Val.list [])])) Option.none)).1
      "success" = Option.some (Val.bool true) ∧
    (search_teams (Val.str (String.mk (List.replicate 50 'a') ++ " "))
        (NetOutcome.response 200 (Except.ok (Val.dict [("teams", Val.list [])])) Option.none)).2 = 1 :=
  ⟨by decide, rfl, rfl, rfl⟩

/-- C1 (amended): for every input string whose whitespace-stripped form fails
the character allow-list (is empty or holds a disallowed character) or
exceeds the 50-character bound, `search_teams` returns `success=false` with
`validation_failed=true` and a non-empty human-readable error message, and
performs zero outbound network-call attempts. -/
theorem c1_validation_rejection (s : String) (net : NetOutcome)
    (h : pyStrip s = "" ∨ (pyStrip s).toList.all allowedChar = false ∨ 50 < (pyStrip s).length) :
    Val.lookup (search_teams (Val.str s) net).1 "success" = Option.some (Val.bool false) ∧
    Val.lookup (search_teams (Val.str s) net).1 "validation_failed" = Option.some (Val.bool true) ∧
    (∃ m, Val.lookup (search_teams (Val.str s) net).1 "error" = Option.some (Val.str m) ∧ m ≠ "") ∧
    (search_teams (Val.str s) net).2 = 0 := by
  by_cases hs : s.isEmpty
  · have hr : search_teams (Val.str s) net = (invalidDict (Val.str s), 0) := by
      simp [search_teams, search_teams_body, hs]
    rw [hr]
    obtain ⟨p1, p2, p3⟩ := validationDictProps (Val.str s) _ (Or.inl rfl)
    exact ⟨p1, p2, p3, rfl⟩
  · by_cases hre : regexOk (pyStrip s)
    · have hlen : 50 < (pyStrip s).length := by
        rcases h with h1 | h2 | h3
        · rw [regexOk, h1] at hre; exact absurd hre (by decide)
        · rw [regexOk, h2] at hre; simp at hre
        · exact h3
      have hr : search_teams (Val.str s) net = (tooLongDict (Val.str s), 0) := by
        simp [search_teams, search_teams_body, hs, hre, hlen]
      rw [hr]
      obtain ⟨p1, p2, p3⟩ := validationDictProps (Val.str s) _ (Or.inr (Or.inr rfl))
      exact ⟨p1, p2, p3, rfl⟩
    · have hr : search_teams (Val.str s) net = (formatDict (Val.str s), 0) := by
        simp [search_teams, search_teams_body, hs, hre]
      rw [hr]
      obtain ⟨p1, p2, p3⟩ := validationDictProps (Val.str s) _ (Or.inr (Or.inl rfl))
      exact ⟨p1, p2, p3, rfl⟩

/-- Witness for C1 (amended) at the input `!!`, which fails the allow-list. -/
theorem c1_validation_rejection_witness :
    Val.lookup (search_teams (Val.str "!!") NetOutcome.timeout).1 "success" =
      Option.some (Val.bool false) ∧
    Val.lookup (search_teams (Val.str "!!") NetOutcome.timeout).1 "validation_failed" =
      Option.some (Val.bool true) ∧
    (∃ m, Val.lookup (search_teams (Val.str "!!") NetOutcome.timeout).1 "error" =
      Option.some (Val.str m) ∧ m ≠ "") ∧
    (search_teams (Val.str "!!") NetOutcome.timeout).2 = 0 :=
  c1_validation_rejection "!!" NetOutcome.timeout (by decide)

/-- C2 counterexample: on the empty ticker string `get_stock_price` still
attempts its remote fetch (attempt count 1) and the returned mapping carries
no `success` field at all, so there is no `success=false` validation result
and not zero outbound requests. -/
theorem c2_stock_no_validation_counterexample :
    (get_stock_price (Val.str "") (StockOutcome.exn "Empty ticker")).2 = 1 ∧
    Val.lookup (get_stock_price (Val.str "") (StockOutcome.exn "Empty ticker")).1 "success" =
      Option.none :=
  ⟨rfl, rfl⟩

/-- C2 (amended): `search_teams` rejects every falsy or non-string input
before any network call with `success=false` and `validation_failed=true` and
zero call attempts; `get_stock_price` performs no input validation at all —
for every ticker, the empty string included, it makes its remote fetch
attempt and no result it returns carries a `success` field. -/
theorem c2_validation_before_network (v : Val) (net : NetOutcome)
    (h : pyTruthy v = false ∨ Val.isStr v = false) (w : Val) (out : StockOutcome) :
    Val.lookup (search_teams v net).1 "success" = Option.some (Val.bool false) ∧
    Val.lookup (search_teams v net).1 "validation_failed" = Option.some (Val.bool true) ∧
    (search_teams v net).2 = 0 ∧
    (get_stock_price w out).2 = 1 ∧
    Val.lookup (get_stock_price w out).1 "success" = Option.none := by
  have hsearch : search_teams v net = (invalidDict v, 0) := by
    cases v
    case str s =>
      rcases h with h | h
      · have hs : s.isEmpty = true := by
          simpa [pyTruthy] using h
        simp [search_teams, search_teams_body, hs]
      · exact absurd h (by simp [Val.isStr])
    all_goals rfl
  rw [hsearch]
  cases out <;> exact ⟨rfl, rfl, rfl, rfl, rfl⟩

/-- Witness for C2 (amended) at `None` input and an empty ticker. -/
theorem c2_validation_before_network_witness :
    Val.lookup (search_teams Val.none NetOutcome.timeout).1 "success" =
      Option.some (Val.bool false) ∧
    Val.lookup (search_teams Val.none NetOutcome.timeout).1 "validation_failed" =
      Option.some (Val.bool true) ∧
    (search_teams Val.none NetOutcome.timeout).2 = 0 ∧
    (get_stock_price (Val.str "") (StockOutcome.exn "no data found")).2 = 1 ∧
    Val.lookup (get_stock_price (Val.str "") (StockOutcome.exn "no data found")).1 "success" =
      Option.none :=
  c2_validation_before_network Val.none NetOutcome.timeout (Or.inl rfl)
    (Val.str "") (StockOutcome.exn "no data found")

/-- C3 counterexample: the success-path result of `get_stock_price` carries
no `success` field, refuting that every adapter result is a mapping with a
boolean `success` field. -/
theorem c3_stock_missing_success_counterexample :
    Val.lookup (get_stock_price (Val.str "MSFT")
        (StockOutcome.ok [("shortName", Val.str "Microsoft")]
          (Val.int 500) (Val.int 505) (Val.int 495))).1 "success" = Option.none :=
  rfl

/-- C3 (amended): every `search_teams` result satisfies the envelope
invariant — a boolean `success` with `teams` populated and `error` absent on
success, and `error` populated and `teams` absent on failure; `get_stock_price`
results carry no `success` field, and populate exactly one of the price
payload (`current_price`) or the `error` description, according to the
outcome of the fetch. -/
theorem c3_result_envelope (v : Val) (net : NetOutcome) (w : Val) (out : StockOutcome) :
    envOk (search_teams v net).1 ∧
    Val.lookup (get_stock_price w out).1 "success" = Option.none ∧
    (Val.lookup (get_stock_price w out).1 "error").isSome = !StockOutcome.isOk out ∧
    (Val.lookup (get_stock_price w out).1 "current_price").isSome = StockOutcome.isOk out := by
  refine ⟨envOk_search v net, ?_⟩
  cases out <;> exact ⟨rfl, rfl, rfl⟩

/-- C6: for every valid search term and every API response dict whose
`teams` field is missing, falsy, or exactly `[None]`, `search_teams` returns
`success=true` with an empty teams list, count 0, and a non-empty
explanatory message. -/
theorem c6_empty_result_is_success (s : String) (ds : List (String × Val)) (date : Option String)
    (hv : validTeamName s = true)
    (ht : pyTruthy (pyGet ds "teams" (Val.list [])) = false ∨
      eqListNone (pyGet ds "teams" (Val.list [])) = true) :
    Val.lookup (search_teams (Val.str s)
        (NetOutcome.response 200 (Except.ok (Val.dict ds)) date)).1 "success" =
      Option.some (Val.bool true) ∧
    Val.lookup (search_teams (Val.str s)
        (NetOutcome.response 200 (Except.ok (Val.dict ds)) date)).1 "teams" =
      Option.some (Val.list []) ∧
    Val.lookup (search_teams (Val.str s)
        (NetOutcome.response 200 (Except.ok (Val.dict ds)) date)).1 "count" =
      Option.some (Val.int 0) ∧
    ∃ m, Val.lookup (search_teams (Val.str s)
        (NetOutcome.response 200 (Except.ok (Val.dict ds)) date)).1 "message" =
      Option.some (Val.str m) ∧ m ≠ "" := by
  obtain ⟨h1, h2, h3⟩ := validParts s hv
  have hcond : (!pyTruthy (pyGet ds "teams" (Val.list [])) ||
      eqListNone (pyGet ds "teams" (Val.list []))) = true := by
    rcases ht with ht | ht <;> simp [ht]
  have hb : search_teams_body (Val.str s)
      (NetOutcome.response 200 (Except.ok (Val.dict ds)) date) =
      (Except.ok (emptyResultDict (pyStrip s)), 1) := by
    simp [search_teams_body, h1, h2, h3, processResponse, hcond]
  rw [search_teams_ok _ _ _ _ hb]
  refine ⟨rfl, rfl, rfl, _, rfl, ?_⟩
  intro hemp
  have hlen := congrArg String.length hemp
  simp [String.length_append] at hlen
  exact absurd hlen.1.1 (by decide)

/-- Witness for C6: searching `Arsenal` against a response whose `teams`
field is `[None]`. -/
theorem c6_empty_result_is_success_witness :
    Val.lookup (search_teams (Val.str "Arsenal")
        (NetOutcome.response 200 (Except.ok (Val.dict [("teams", Val.list [Val.none])]))
          Option.none)).1 "success" = Option.some (Val.bool true) ∧
    Val.lookup (search_teams (Val.str "Arsenal")
        (NetOutcome.response 200 (Except.ok (Val.dict [("teams", Val.list [Val.none])]))
          Option.none)).1 "teams" = Option.some (Val.list []) ∧
    Val.lookup (search_teams (Val.str "Arsenal")
        (NetOutcome.response 200 (Except.ok (Val.dict [("teams", Val.list [Val.none])]))
          Option.none)).1 "count" = Option.some (Val.int 0) ∧
    ∃ m, Val.lookup (search_teams (Val.str "Arsenal")
        (NetOutcome.response 200 (Except.ok (Val.dict [("teams", Val.list [Val.none])]))
          Option.none)).1 "message" = Option.some (Val.str m) ∧ m ≠ "" :=
  c6_empty_result_is_success "Arsenal" [("teams", Val.list [Val.none])] Option.none
    rfl (Or.inr rfl)

/-- C7: for every valid search term, when the outbound HTTP call times out,
`search_teams` returns a dict (it never raises to its caller) with
`success=false`, `timeout_error=true`, and a non-empty error message. -/
theorem c7_timeout_handled (s : String) (hv : validTeamName s = true) :
    (∃ es, (search_teams (Val.str s) NetOutcome.timeout).1 = Val.dict es) ∧
    Val.lookup (search_teams (Val.str s) NetOutcome.timeout).1 "success" =
      Option.some (Val.bool false) ∧
    Val.lookup (search_teams (Val.str s) NetOutcome.timeout).1 "timeout_error" =
      Option.some (Val.bool true) ∧
    ∃ m, Val.lookup (search_teams (Val.str s) NetOutcome.timeout).1 "error" =
      Option.some (Val.str m) ∧ m ≠ "" := by
  obtain ⟨h1, h2, h3⟩ := validParts s hv
  have hb : search_teams_body (Val.str s) NetOutcome.timeout = (Except.error PyExn.timeout, 1) := by
    simp [search_teams_body, h1, h2, h3]
  rw [search_teams_err _ _ _ _ hb]
  exact ⟨⟨_, rfl⟩, rfl, rfl, _, rfl, by decide⟩

/-- Witness for C7 at the search term `Arsenal`. -/
theorem c7_timeout_handled_witness :
    (∃ es, (search_teams (Val.str "Arsenal") NetOutcome.timeout).1 = Val.dict es) ∧
    Val.lookup (search_teams (Val.str "Arsenal") NetOutcome.timeout).1 "success" =
      Option.some (Val.bool false) ∧
    Val.lookup (search_teams (Val.str "Arsenal") NetOutcome.timeout).1 "timeout_error" =
      Option.some (Val.bool true) ∧
    ∃ m, Val.lookup (search_teams (Val.str "Arsenal") NetOutcome.timeout).1 "error" =
      Option.some (Val.str m) ∧ m ≠ "" :=
  c7_timeout_handled "Arsenal" rfl

/-- C8 counterexample: the generic error shape of `get_stock_price` is not
the `success=false` error shape — it has no `success` field at all. -/
theorem c8_stock_error_shape_counterexample :
    Val.lookup (get_stock_price (Val.str "AAPL") (StockOutcome.exn "boom")).1 "success" =
      Option.none :=
  rfl

/-- C8 (amended): both adapters are total — every exception raised inside the
adapter is caught at its outermost boundary and converted into an error
mapping, so no invocation propagates an exception.  The `search_teams` error
mapping carries `success=false` and an error message; the `get_stock_price`
error mapping carries the error message but no `success` field. -/
theorem c8_exceptions_converted (v : Val) (net : NetOutcome) (e : PyExn) (n : Nat)
    (hb : search_teams_body v net = (Except.error e, n)) (w : Val) (m : String) :
    (∃ es, (search_teams v net).1 = Val.dict es) ∧
    Val.lookup (search_teams v net).1 "success" = Option.some (Val.bool false) ∧
    (∃ em, Val.lookup (search_teams v net).1 "error" = Option.some (Val.str em)) ∧
    (∃ es, (get_stock_price w (StockOutcome.exn m)).1 = Val.dict es) ∧
    Val.lookup (get_stock_price w (StockOutcome.exn m)).1 "error" =
      Option.some (Val.str ("Failed to retrieve stock information: " ++ m)) ∧
    Val.lookup (get_stock_price w (StockOutcome.exn m)).1 "success" = Option.none := by
  rw [search_teams_err v net e n hb]
  cases e <;> exact ⟨⟨_, rfl⟩, rfl, ⟨_, rfl⟩, ⟨_, rfl⟩, rfl, rfl⟩

/-- Witness for C8 (amended): a timeout raised while searching `Arsenal` and
an exception inside the stock fetch. -/
theorem c8_exceptions_converted_witness :
    (∃ es, (search_teams (Val.str "Arsenal") NetOutcome.timeout).1 = Val.dict es) ∧
    Val.lookup (search_teams (Val.str "Arsenal") NetOutcome.timeout).1 "success" =
      Option.some (Val.bool false) ∧
    (∃ em, Val.lookup (search_teams (Val.str "Arsenal") NetOutcome.timeout).1 "error" =
      Option.some (Val.str em)) ∧
    (∃ es, (get_stock_price (Val.str "GOOG") (StockOutcome.exn "boom")).1 = Val.dict es) ∧
    Val.lookup (get_stock_price (Val.str "GOOG") (StockOutcome.exn "boom")).1 "error" =
      Option.some (Val.str ("Failed to retrieve stock information: " ++ "boom")) ∧
    Val.lookup (get_stock_price (Val.str "GOOG") (StockOutcome.exn "boom")).1 "success" =
      Option.none :=
  c8_exceptions_converted (Val.str "Arsenal") NetOutcome.timeout PyExn.timeout 1 rfl
    (Val.str "GOOG") "boom"

/-- C9: for every CLI invocation whose second positional argument fails JSON
parsing, the runner prints exactly the invalid-JSON message framed by the
`AGENT_ERROR_START` / `AGENT_ERROR_END` sentinels, exits with status 1, and
never calls into the agent runtime. -/
theorem c9_invalid_context_json (prog msg ctx : String) (rest : List String)
    (parseCtx : String → Except String Val) (agent : AgentOutcome) (e : String)
    (hp : parseCtx ctx = Except.error e) :
    agent_runner_main (prog :: msg :: ctx :: rest) parseCtx agent =
      { stdout := ["AGENT_ERROR_START\nInvalid context JSON: " ++ e ++ "\nAGENT_ERROR_END"],
        exitCode := 1, agentCalls := 0 } := by
  simp [agent_runner_main, hp]

/-- Witness for C9: `python agent_runner.py hi not-json` with a failing JSON
parse. -/
theorem c9_invalid_context_json_witness :
    agent_runner_main ["agent_runner.py", "hi", "not-json"]
        (fun _ => Except.error "Expecting value: line 1 column 1 (char 0)")
        (AgentOutcome.reply "ok") =
      { stdout := ["AGENT_ERROR_START\nInvalid context JSON: " ++
          "Expecting value: line 1 column 1 (char 0)" ++ "\nAGENT_ERROR_END"],
        exitCode := 1, agentCalls := 0 } :=
  c9_invalid_context_json "agent_runner.py" "hi" "not-json" []
    (fun _ => Except.error "Expecting value: line 1 column 1 (char 0)")
    (AgentOutcome.reply "ok") "Expecting value: line 1 column 1 (char 0)" rfl

/-- `processAll` filters out every non-dict item. -/
theorem processAll_no_dicts (xs : List Val) (hx : ∀ x ∈ xs, Val.isDictV x = false) :
    processAll xs = Except.ok [] := by
  induction xs with
  | nil => rfl
  | cons t ts ih =>
      have ht := hx t (List.mem_cons_self t ts)
      have hts : ∀ x ∈ ts, Val.isDictV x = false := fun x hm => hx x (List.mem_cons_of_mem t hm)
      cases t with
      | dict es => exact absurd ht (by simp [Val.isDictV])
      | str a => exact ih hts
      | int a => exact ih hts
      | bool a => exact ih hts
      | none => exact ih hts
      | list a => exact ih hts

/-- C10: for every valid search term, when the remote `teams` field is a list
whose elements are all `None` or otherwise non-dict values (the `[None]`
singleton included), `search_teams` succeeds with an empty, fully filtered
teams list and count 0 rather than failing or emitting a null-derived
record. -/
theorem c10_null_entries_filtered (s : String) (date : Option String) (xs : List Val)
    (hv : validTeamName s = true) (hx : ∀ x ∈ xs, Val.isDictV x = false) :
    Val.lookup (search_teams (Val.str s)
        (NetOutcome.response 200 (Except.ok (Val.dict [("teams", Val.list xs)])) date)).1
      "success" = Option.some (Val.bool true) ∧
    Val.lookup (search_teams (Val.str s)
        (NetOutcome.response 200 (Except.ok (Val.dict [("teams", Val.list xs)])) date)).1
      "teams" = Option.some (Val.list []) ∧
    Val.lookup (search_teams (Val.str s)
        (NetOutcome.response 200 (Except.ok (Val.dict [("teams", Val.list xs)])) date)).1
      "count" = Option.some (Val.int 0) := by
  obtain ⟨h1, h2, h3⟩ := validParts s hv
  have hb : search_teams_body (Val.str s)
      (NetOutcome.response 200 (Except.ok (Val.dict [("teams", Val.list xs)])) date) =
      (processResponse (pyStrip s) [("teams", Val.list xs)] date, 1) := by
    simp [search_teams_body, h1, h2, h3]
  have hpr : processResponse (pyStrip s) [("teams", Val.list xs)] date =
        Except.ok (emptyResultDict (pyStrip s)) ∨
      processResponse (pyStrip s) [("teams", Val.list xs)] date =
        Except.ok (successDict (pyStrip s) [] date) := by
    by_cases hc : (!pyTruthy (pyGet [("teams", Val.list xs)] "teams" (Val.list [])) ||
        eqListNone (pyGet [("teams", Val.list xs)] "teams" (Val.list []))) = true
    · left
      simp [processResponse, hc]
    · right
      simp only [processResponse, hc, if_false, Bool.false_eq_true]
      simp [pyGet, pyIter, Bind.bind, Except.bind, processAll_no_dicts xs hx]
  rcases hpr with hpr | hpr <;> rw [hpr] at hb <;> rw [search_teams_ok _ _ _ _ hb] <;>
    exact ⟨rfl, rfl, rfl⟩

/-- Witness for C10: searching `Arsenal` against a `teams` list holding a
`None` and a number. -/
theorem c10_null_entries_filtered_witness :
    Val.lookup (search_teams (Val.str "Arsenal")
        (NetOutcome.response 200
          (Except.ok (Val.dict [("teams", Val.list [Val.none, Val.int 3])])) Option.none)).1
      "success" = Option.some (Val.bool true) ∧
    Val.lookup (search_teams (Val.str "Arsenal")
        (NetOutcome.response 200
          (Except.ok (Val.dict [("teams", Val.list [Val.none, Val.int 3])])) Option.none)).1
      "teams" = Option.some (Val.list []) ∧
    Val.lookup (search_teams (Val.str "Arsenal")
        (NetOutcome.response 200
          (Except.ok (Val.dict [("teams", Val.list [Val.none, Val.int 3])])) Option.none)).1
      "count" = Option.some (Val.int 0) :=
  c10_null_entries_filtered "Arsenal" Option.none [Val.none, Val.int 3] rfl
    (by intro x hm
        cases hm with
        | head => rfl
        | tail _ hm2 =>
          cases hm2 with
          | head => rfl
          | tail _ hm3 => cases hm3)

end SportBuddy
